import Mathlib

/-!
# Verification of `src/cloud_provider/aws/external_service.rs`

A shallow embedding of the AWS `ExternalService` lifecycle implementation.
Pure functions of the source become Lean functions; the external tool
invocations (template render, helm upgrade-with-history, kubectl job-ready
poll, stateless-service deletion) are represented by an oracle record
(`Externals`) carrying the outcome each invocation would produce, so that the
orchestration logic of `on_create` / `on_pause` / `on_delete` can be analysed
as a function of those outcomes.  A Rust panic (e.g. an out-of-range string
slice) is modelled explicitly by the `Panics` / `RunResult` types.
-/

namespace Engine

/-- Outcome of a computation that can hit a Rust panic. -/
inductive Panics (α : Type) where
  | panic
  | ok (val : α)
  deriving Repr, DecidableEq

/-- A diagnostic error produced by an external tool invocation
(`crate::error::SimpleError`); only its message matters here. -/
structure SimpleError where
  message : String
  deriving Repr, DecidableEq

/-- `crate::error::EngineErrorScope` — the entity an error is attributed to.
Only the constructors reachable from this file's code are listed, plus the
`kubernetes` scope that errors of `Kubernetes::config_file_path` may carry. -/
inductive EngineErrorScope where
  | externalService (id : String) (name : String)
  | kubernetes (id : String) (name : String)
  deriving Repr, DecidableEq

/-- `crate::error::EngineErrorCause` — user-caused vs internal failure. -/
inductive EngineErrorCause where
  | user (message : String)
  | internal
  deriving Repr, DecidableEq

/-- `crate::error::EngineError`: scope, cause and message. -/
structure EngineError where
  scope : EngineErrorScope
  cause : EngineErrorCause
  message : String
  deriving Repr, DecidableEq

/-- Result of a lifecycle operation: Rust `Result<(), EngineError>`, with a
separate constructor for a panic escaping the function. -/
inductive RunResult where
  | panicked
  | failed (e : EngineError)
  | ok
  deriving Repr, DecidableEq

/-- `crate::build_platform::Image` — the fields used by this file. -/
structure Image where
  name : String
  tag : String
  commit_id : String
  registry_url : Option String
  deriving Repr, DecidableEq

/-- Modelled from the spec: `Image::name_with_tag` composes the local
image reference as the "<imageName>:<tag>" string. -/
def Image.name_with_tag (img : Image) : String :=
  img.name ++ ":" ++ img.tag

/-- `crate::cloud_provider::models::EnvironmentVariable`. -/
structure EnvironmentVariable where
  key : String
  value : String
  deriving Repr, DecidableEq

/-- `crate::cloud_provider::models::EnvironmentVariableDataTemplate`. -/
structure EnvironmentVariableDataTemplate where
  key : String
  value : String
  deriving Repr, DecidableEq

/-- `crate::cloud_provider::service::Action`. -/
inductive Action where
  | create
  | pause
  | delete
  deriving Repr, DecidableEq

/-- `crate::models::Context` — the fields this file reads
(`lib_root_dir`, `execution_id`), plus the workspace root that
`Service::workspace_directory` derives its directory from. -/
structure Context where
  lib_root_dir : String
  execution_id : String
  workspace_root_dir : String
  deriving Repr, DecidableEq

/-- Modelled from the spec: `cmd::helm::Timeout` — a named timeout policy,
either the default or an explicit value. -/
inductive Timeout (α : Type) where
  | default
  | value (v : α)
  deriving Repr, DecidableEq

/-- Modelled from the spec: a helm deployment-history record carrying the
boolean "successfully deployed" flag (`cmd::helm`, not under `src/`). -/
structure HelmHistoryRow where
  is_successfully_deployed : Bool
  deriving Repr, DecidableEq

/-- Values stored in a tera template context: either a plain string or the
flattened environment-variable list. -/
inductive TplValue where
  | str (s : String)
  | envList (l : List EnvironmentVariableDataTemplate)
  deriving Repr, DecidableEq

/-- `tera::Context`: a key/value map; `insert` replaces any previous binding
of the key. -/
structure TeraContext where
  entries : List (String × TplValue)
  deriving Repr, DecidableEq

/-- `tera::Context::insert` — bind `k` to `v`, replacing any earlier binding. -/
def TeraContext.insert (c : TeraContext) (k : String) (v : TplValue) : TeraContext :=
  ⟨(k, v) :: c.entries.filter (fun p => p.fst ≠ k)⟩

/-- Look up the current binding of a key. -/
def TeraContext.lookup (c : TeraContext) (k : String) : Option TplValue :=
  (c.entries.find? (fun p => p.fst = k)).map Prod.snd

/-- `cloud_provider::kubernetes::Kubernetes` — the two capabilities this file
uses: the kubeconfig path lookup (which may fail with an `EngineError`) and
the cloud provider's credential environment variables. -/
structure Kubernetes where
  configFilePath : Except EngineError String
  credentials : List (String × String)

/-- `cloud_provider::environment::Environment` — only the namespace is read. -/
structure Environment where
  namespace_ : String
  deriving Repr, DecidableEq

/-- `cloud_provider::DeploymentTarget`: two variants carrying the same
(cluster, environment) pair. -/
inductive DeploymentTarget where
  | managedServices (k : Kubernetes) (env : Environment)
  | selfHosted (k : Kubernetes) (env : Environment)

/-- The target resolution performed at the top of `on_create`: both match
arms extract the contained pair. -/
def DeploymentTarget.resolve : DeploymentTarget → Kubernetes × Environment
  | .managedServices k env => (k, env)
  | .selfHosted k env => (k, env)

/-- `ExternalService` (the struct of `external_service.rs`). -/
structure ExternalService where
  context : Context
  id : String
  action : Action
  name : String
  total_cpus : String
  total_ram_in_mib : Nat
  image : Image
  environment_variables : List EnvironmentVariable

/-- `ExternalService::new`. -/
def ExternalService.new (context : Context) (id : String) (action : Action)
    (name : String) (total_cpus : String) (total_ram_in_mib : Nat) (image : Image)
    (environment_variables : List EnvironmentVariable) : ExternalService :=
  { context := context, id := id, action := action, name := name,
    total_cpus := total_cpus, total_ram_in_mib := total_ram_in_mib,
    image := image, environment_variables := environment_variables }

/-- `Service::private_port` for `ExternalService`: always `None`. -/
def ExternalService.private_port (_s : ExternalService) : Option Nat := none

/-- `Service::total_instances` for `ExternalService`: always `1`. -/
def ExternalService.total_instances (_s : ExternalService) : Nat := 1

/-- `Service::engine_error_scope` for `ExternalService`. -/
def ExternalService.engine_error_scope (s : ExternalService) : EngineErrorScope :=
  .externalService s.id s.name

/-- Modelled from the spec: `Service::engine_error` (trait default, not under
`src/`) builds an `EngineError` from the service's own scope, the given cause
and the given message. -/
def ExternalService.engine_error (s : ExternalService) (cause : EngineErrorCause)
    (message : String) : EngineError :=
  { scope := s.engine_error_scope, cause := cause, message := message }

/-- Modelled from the spec: `Service::name_with_id` (trait default, not under
`src/`) — a display string naming both the service name and id. -/
def ExternalService.name_with_id (s : ExternalService) : String :=
  s.name ++ " (" ++ s.id ++ ")"

/-- Modelled from the spec: `Service::workspace_directory` (trait default, not
under `src/`) — a fresh per-execution workspace directory under the
workspace root. -/
def ExternalService.workspace_directory (s : ExternalService) : String :=
  s.context.workspace_root_dir ++ "/" ++ s.context.execution_id

/-- Modelled from the spec: `crate::string::cut` (not under `src/`) truncates
a string to at most `n` characters. -/
def cut (s : String) (n : Nat) : String :=
  ⟨s.data.take n⟩

/-- `Helm::helm_release_name` for `ExternalService`:
`cut("external-service-{name}-{id}", 50)`. -/
def ExternalService.helm_release_name (s : ExternalService) : String :=
  cut ("external-service-" ++ s.name ++ "-" ++ s.id) 50

/-- The warning text emitted on the missing-registry fallback path. -/
def noRegistryWarning (image_name_with_tag : String) : String :=
  "there is no registry url, use image name with tag with the default container registry: "
    ++ image_name_with_tag

/-- `ExternalService::context` — builds the tera context from the default
context plus the service-specific entries.  The Rust slice
`&commit_id[..7]` panics when the commit id has fewer than 7 characters;
the function also records the warnings it emits. -/
def ExternalService.tera_context (s : ExternalService) (base : TeraContext) :
    Panics (TeraContext × List String) :=
  if s.image.commit_id.length < 7 then
    .panic
  else
    let c1 := base.insert "helm_app_version" (.str ⟨s.image.commit_id.data.take 7⟩)
    let (c2, warns) :=
      match s.image.registry_url with
      | some registry_url => (c1.insert "image_name_with_tag" (.str registry_url), [])
      | none =>
          let image_name_with_tag := s.image.name_with_tag
          (c1.insert "image_name_with_tag" (.str image_name_with_tag),
            [noRegistryWarning image_name_with_tag])
    let environment_variables := s.environment_variables.map
      (fun ev => EnvironmentVariableDataTemplate.mk ev.key ev.value)
    .ok (c2.insert "environment_variables" (.envList environment_variables), warns)

/-- Modelled from the spec: `crate::error::cast_simple_error_to_engine_error`
(not under `src/`) lifts a leaf tool failure into an `EngineError` carrying
the given scope; per the spec's propagation policy such infrastructure
failures (render step, tool invocation) are classified `Internal`. -/
def cast_simple_error_to_engine_error {α : Type} (scope : EngineErrorScope)
    (_execution_id : String) (r : Except SimpleError α) : Except EngineError α :=
  match r with
  | .ok a => .ok a
  | .error e => .error { scope := scope, cause := .internal, message := e.message }

/-- The outcomes the external collaborators would produce for one lifecycle
invocation: the default tera context supplied by
`Service::default_tera_context`, the template-render result
(`template::generate_and_copy_all_files_into_dir`), the helm
upgrade-with-history result (`cmd::helm::helm_exec_with_upgrade_history`),
the readiness poll result
(`cmd::kubectl::kubectl_exec_is_job_ready_with_retry`), and the outcome the
underlying removal in `delete_stateless_service` would observe. -/
structure Externals where
  defaultTera : Kubernetes → Environment → TeraContext
  render : Except SimpleError Unit
  helmExec : Except SimpleError (Option HelmHistoryRow)
  jobReady : Except SimpleError (Option Bool)
  deleteOutcome : Except SimpleError Unit

/-- The `User`-caused message of the failed-deployment branch of `on_create`. -/
def createUserMessage : String :=
  "Your External Service didn't start for some reason. "
    ++ "Are you sure your External Service is correctly running? "
    ++ "You can give a try by running locally `docker run`. "
    ++ "You can also check the External Service log from the web "
    ++ "interface or the CLI with `qovery log`"

/-- `Create::on_create` for `ExternalService`: resolve the target, build the
tera context (may panic on a short commit id), render the chart templates,
run helm upgrade-with-history, require a most-recent history record with the
"successfully deployed" flag, then require the readiness poll to answer
`Ok(Some(true))`. -/
def ExternalService.on_create (s : ExternalService) (ext : Externals)
    (target : DeploymentTarget) : RunResult :=
  match s.tera_context (ext.defaultTera target.resolve.1 target.resolve.2) with
  | .panic => .panicked
  | .ok (_context, _warns) =>
    match cast_simple_error_to_engine_error s.engine_error_scope
        s.context.execution_id ext.render with
    | .error e => .failed e
    | .ok () =>
      match target.resolve.1.configFilePath with
      | .error e => .failed e
      | .ok _kubernetes_config_file_path =>
        match cast_simple_error_to_engine_error s.engine_error_scope
            s.context.execution_id ext.helmExec with
        | .error e => .failed e
        | .ok none =>
            .failed (s.engine_error (.user createUserMessage)
              ("External Service " ++ s.name_with_id ++ " has failed to start ⤬"))
        | .ok (some row) =>
          if !row.is_successfully_deployed then
            .failed (s.engine_error (.user createUserMessage)
              ("External Service " ++ s.name_with_id ++ " has failed to start ⤬"))
          else
            match ext.jobReady with
            | .ok (some true) => .ok
            | _ =>
                .failed (s.engine_error .internal
                  ("External Service " ++ s.name ++ " with id " ++ s.id
                    ++ " failed to start after several retries"))

/-- `Create::on_create_check`: succeeds unconditionally. -/
def ExternalService.on_create_check (_s : ExternalService) : Except EngineError Unit :=
  .ok ()

/-- Modelled from the spec: `cloud_provider::service::delete_stateless_service`
(not under `src/`) removes the stateless deployment; the `is_error` flag
changes only the failure-reporting verbosity (the message), never whether
the operation succeeds.  Deletion is idempotent, so an already-absent
release is a success of the underlying outcome, not an error. -/
def delete_stateless_service (ext : Externals) (s : ExternalService)
    (is_error : Bool) : Except EngineError Unit :=
  match ext.deleteOutcome with
  | .ok () => .ok ()
  | .error e =>
      .error (s.engine_error .internal
        (if is_error then
          "error while trying to undeploy stateless service " ++ s.name_with_id
            ++ ": " ++ e.message
        else
          "unable to undeploy stateless service " ++ s.name_with_id))

/-- `Pause::on_pause`: remove the stateless deployment with `is_error = false`. -/
def ExternalService.on_pause (s : ExternalService) (ext : Externals)
    (_target : DeploymentTarget) : Except EngineError Unit :=
  delete_stateless_service ext s false

/-- `Pause::on_pause_check`: succeeds unconditionally. -/
def ExternalService.on_pause_check (_s : ExternalService) : Except EngineError Unit :=
  .ok ()

/-- `Pause::on_pause_error`: re-invoke the removal with `is_error = true`. -/
def ExternalService.on_pause_error (s : ExternalService) (ext : Externals)
    (_target : DeploymentTarget) : Except EngineError Unit :=
  delete_stateless_service ext s true

/-- `Delete::on_delete`: remove the stateless deployment with `is_error = false`. -/
def ExternalService.on_delete (s : ExternalService) (ext : Externals)
    (_target : DeploymentTarget) : Except EngineError Unit :=
  delete_stateless_service ext s false

/-- `Delete::on_delete_check`: succeeds unconditionally. -/
def ExternalService.on_delete_check (_s : ExternalService) : Except EngineError Unit :=
  .ok ()

/-- `Delete::on_delete_error`: re-invoke the removal with `is_error = true`. -/
def ExternalService.on_delete_error (s : ExternalService) (ext : Externals)
    (_target : DeploymentTarget) : Except EngineError Unit :=
  delete_stateless_service ext s true

/-! ## Lookup lemmas for the tera context -/

/-- Dropping the bindings of one key does not change the lookup of another. -/
theorem find_filter_key_ne (l : List (String × TplValue)) (k k' : String)
    (h : k' ≠ k) :
    (l.filter (fun p => p.fst ≠ k)).find? (fun p => p.fst = k')
      = l.find? (fun p => p.fst = k') := by
  induction l with
  | nil => rfl
  | cons a t ih =>
    by_cases ha : a.fst = k
    · have h1 : ¬ ((fun p : String × TplValue => decide (p.fst ≠ k)) a = true) := by
        simp [ha]
      have h2 : ¬ ((fun p : String × TplValue => decide (p.fst = k')) a = true) := by
        simp [ha]
        exact fun hh => h hh.symm
      rw [List.filter_cons_of_neg (p := fun p : String × TplValue => decide (p.fst ≠ k)) h1,
        List.find?_cons_of_neg (p := fun p : String × TplValue => decide (p.fst = k')) t h2, ih]
    · have h1 : (fun p : String × TplValue => decide (p.fst ≠ k)) a = true := by
        simp [ha]
      rw [List.filter_cons_of_pos (p := fun p : String × TplValue => decide (p.fst ≠ k)) h1]
      by_cases ha' : a.fst = k'
      · have h2 : (fun p : String × TplValue => decide (p.fst = k')) a = true := by
          simp [ha']
        rw [List.find?_cons_of_pos (p := fun p : String × TplValue => decide (p.fst = k')) _ h2,
          List.find?_cons_of_pos (p := fun p : String × TplValue => decide (p.fst = k')) _ h2]
      · have h2 : ¬ ((fun p : String × TplValue => decide (p.fst = k')) a = true) := by
          simp [ha']
        rw [List.find?_cons_of_neg (p := fun p : String × TplValue => decide (p.fst = k')) _ h2,
          List.find?_cons_of_neg (p := fun p : String × TplValue => decide (p.fst = k')) _ h2, ih]

/-- After `insert k v`, looking up `k` yields `v`. -/
theorem TeraContext.lookup_insert_self (c : TeraContext) (k : String) (v : TplValue) :
    (c.insert k v).lookup k = some v := by
  simp [TeraContext.insert, TeraContext.lookup, List.find?_cons]

/-- After `insert k v`, looking up a different key is unchanged. -/
theorem TeraContext.lookup_insert_ne (c : TeraContext) (k k' : String) (v : TplValue)
    (h : k' ≠ k) :
    (c.insert k v).lookup k' = c.lookup k' := by
  have h2 : ¬ ((fun p : String × TplValue => decide (p.fst = k')) (k, v) = true) := by
    simp
    exact fun hh => h hh.symm
  simp only [TeraContext.insert, TeraContext.lookup]
  rw [List.find?_cons_of_neg (p := fun p : String × TplValue => decide (p.fst = k')) _ h2,
    find_filter_key_ne _ _ _ h]

/-! ## Concrete sample values used to instantiate the theorems -/

/-- A sample image with a registry URL and a 12-character commit id. -/
def sampleImage : Image :=
  { name := "worker-img", tag := "v1", commit_id := "deadbeef0123",
    registry_url := some "registry.example/worker:v1" }

/-- A sample engine context. -/
def sampleCtx : Context :=
  { lib_root_dir := "/lib", execution_id := "exec-1", workspace_root_dir := "/work" }

/-- The end-to-end sample service of the spec: name "worker", id "abc123". -/
def sampleSvc : ExternalService :=
  ExternalService.new sampleCtx "abc123" .create "worker" "500m" 512 sampleImage
    [{ key := "K", value := "V" }]

/-- A sample cluster whose kubeconfig lookup succeeds. -/
def sampleK : Kubernetes :=
  { configFilePath := .ok "/kube/config", credentials := [("AWS_KEY", "k")] }

/-- A sample environment. -/
def sampleEnv : Environment := { namespace_ := "ns" }

/-- A sample deployment target. -/
def sampleTarget : DeploymentTarget := .managedServices sampleK sampleEnv

/-- External outcomes for the happy path: render ok, helm history row with a
true "successfully deployed" flag, readiness poll answers ready. -/
def sampleExt : Externals :=
  { defaultTera := fun _ _ => ⟨[]⟩, render := .ok (),
    helmExec := .ok (some { is_successfully_deployed := true }),
    jobReady := .ok (some true), deleteOutcome := .ok () }

/-- External outcomes where the chart apply yields no history record. -/
def noHistoryExt : Externals :=
  { defaultTera := fun _ _ => ⟨[]⟩, render := .ok (),
    helmExec := .ok none, jobReady := .ok (some true), deleteOutcome := .ok () }

/-- A service whose image commit id has only 3 characters. -/
def shortCommitSvc : ExternalService :=
  ExternalService.new sampleCtx "abc123" .create "worker" "500m" 512
    { name := "worker-img", tag := "v1", commit_id := "abc", registry_url := none } []

/-- The `User`-caused error the failed-deployment branch of `on_create`
produces for `sampleSvc`. -/
def sampleUserError : EngineError :=
  sampleSvc.engine_error (.user createUserMessage)
    ("External Service " ++ sampleSvc.name_with_id ++ " has failed to start ⤬")

/-! ## Theorems -/

/-- **C8.** `on_create_check`, `on_pause_check` and `on_delete_check` succeed
unconditionally for every service: the default extension point performs no
extra validation and returns success. -/
theorem claim_C8_checks_always_succeed (s : ExternalService) :
    s.on_create_check = .ok () ∧ s.on_pause_check = .ok () ∧
      s.on_delete_check = .ok () :=
  ⟨rfl, rfl, rfl⟩

/-- **C10.** Whatever arguments are passed to the constructor,
`total_instances()` returns `1` and `private_port()` returns `None`: an
external service is always a single-instance workload with no exposed
private port. -/
theorem claim_C10_single_instance_no_private_port (context : Context) (id : String)
    (action : Action) (name : String) (cpus : String) (ram : Nat) (image : Image)
    (envs : List EnvironmentVariable) :
    (ExternalService.new context id action name cpus ram image envs).total_instances
        = 1 ∧
      (ExternalService.new context id action name cpus ram image envs).private_port
        = none :=
  ⟨rfl, rfl⟩

/-- **C9.** `on_create` behaves identically on `ManagedServices(k, env)` and
`SelfHosted(k, env)`: target resolution discards the tag, so the resolved
(cluster, environment) pair and the whole run result coincide. -/
theorem claim_C9_target_tag_discarded (s : ExternalService) (ext : Externals)
    (k : Kubernetes) (env : Environment) :
    (DeploymentTarget.managedServices k env).resolve
        = (DeploymentTarget.selfHosted k env).resolve ∧
      s.on_create ext (.managedServices k env)
        = s.on_create ext (.selfHosted k env) :=
  ⟨rfl, rfl⟩

/-- **C5.** `on_pause` and `on_delete` both perform the underlying
stateless-deployment removal with `is_error = false` (they are equal as
functions), `on_pause_error` and `on_delete_error` re-invoke the same removal
with `is_error = true`, and the flag never changes whether the removal
succeeds — only the failure message. -/
theorem claim_C5_pause_delete_same_removal (s : ExternalService) (ext : Externals)
    (t : DeploymentTarget) :
    s.on_pause ext t = delete_stateless_service ext s false ∧
      s.on_delete ext t = delete_stateless_service ext s false ∧
      s.on_pause ext t = s.on_delete ext t ∧
      s.on_pause_error ext t = delete_stateless_service ext s true ∧
      s.on_delete_error ext t = delete_stateless_service ext s true ∧
      s.on_pause_error ext t = s.on_delete_error ext t ∧
      (delete_stateless_service ext s true).isOk
        = (delete_stateless_service ext s false).isOk := by
  refine ⟨rfl, rfl, rfl, rfl, rfl, rfl, ?_⟩
  cases h : ext.deleteOutcome <;> simp [delete_stateless_service, h, Except.isOk, Except.toBool]

/-- **C2** (code behaviour at the failing input).  For the service whose
commit id is the 3-character string `"abc"`, `on_create` panics — the Rust
slice `&commit_id[..7]` is out of range — for every set of external outcomes
and every target, instead of returning an `Internal`-caused `EngineError` as
the spec requires; the panic happens while building the context, before any
external invocation can matter. -/
theorem claim_C2_short_commit_id_panics :
    shortCommitSvc.image.commit_id.length < 7 ∧
      ∀ (ext : Externals) (t : DeploymentTarget),
        shortCommitSvc.on_create ext t = .panicked := by
  refine ⟨by decide, fun ext t => ?_⟩
  cases t <;> rfl

/-- **C4.** When building the template context, a present registry URL is used
verbatim as the `image_name_with_tag` entry; when it is absent the entry is
the locally-composed `"<imageName>:<tag>"` string, a warning is emitted, and
the build still proceeds without error. -/
theorem claim_C4_image_reference (s : ExternalService) (base : TeraContext)
    (hcommit : 7 ≤ s.image.commit_id.length) :
    (∀ u, s.image.registry_url = some u →
      ∃ c, s.tera_context base = .ok (c, []) ∧
        c.lookup "image_name_with_tag" = some (.str u)) ∧
      (s.image.registry_url = none →
        ∃ c w, s.tera_context base = .ok (c, w) ∧
          c.lookup "image_name_with_tag"
            = some (.str (s.image.name ++ ":" ++ s.image.tag)) ∧
          w = [noRegistryWarning (s.image.name ++ ":" ++ s.image.tag)]) := by
  have hn : ¬ s.image.commit_id.length < 7 := Nat.not_lt.mpr hcommit
  constructor
  · intro u hreg
    refine ⟨((base.insert "helm_app_version"
        (.str ⟨s.image.commit_id.data.take 7⟩)).insert "image_name_with_tag"
        (.str u)).insert "environment_variables"
        (.envList (s.environment_variables.map fun ev => ⟨ev.key, ev.value⟩)), ?_, ?_⟩
    · unfold ExternalService.tera_context
      rw [if_neg hn, hreg]
    · rw [TeraContext.lookup_insert_ne _ _ _ _ (by decide),
        TeraContext.lookup_insert_self]
  · intro hreg
    refine ⟨((base.insert "helm_app_version"
        (.str ⟨s.image.commit_id.data.take 7⟩)).insert "image_name_with_tag"
        (.str s.image.name_with_tag)).insert "environment_variables"
        (.envList (s.environment_variables.map fun ev => ⟨ev.key, ev.value⟩)),
        [noRegistryWarning s.image.name_with_tag], ?_, ?_, ?_⟩
    · unfold ExternalService.tera_context
      rw [if_neg hn, hreg]
    · rw [TeraContext.lookup_insert_ne _ _ _ _ (by decide),
        TeraContext.lookup_insert_self]
      rfl
    · rfl

/-- Witness for C4: the sample service's registry URL is present and the
context entry is that URL verbatim. -/
theorem claim_C4_image_reference_witness :
    ∃ c, sampleSvc.tera_context ⟨[]⟩ = .ok (c, []) ∧
      c.lookup "image_name_with_tag" = some (.str "registry.example/worker:v1") :=
  (claim_C4_image_reference sampleSvc ⟨[]⟩ (by decide)).1
    "registry.example/worker:v1" rfl

/-- **C6.** The `environment_variables` entry of the built template context is
the list of `{key, value}` records obtained from the service's environment
variables, with input order preserved and every key and value copied
unchanged (same length, same pairs, same order). -/
theorem claim_C6_environment_variables (s : ExternalService) (base : TeraContext)
    (hcommit : 7 ≤ s.image.commit_id.length) :
    ∃ c w, s.tera_context base = .ok (c, w) ∧
      c.lookup "environment_variables"
        = some (.envList (s.environment_variables.map fun ev => ⟨ev.key, ev.value⟩)) ∧
      (s.environment_variables.map fun ev =>
          (⟨ev.key, ev.value⟩ : EnvironmentVariableDataTemplate)).length
        = s.environment_variables.length ∧
      ((s.environment_variables.map fun ev =>
          (⟨ev.key, ev.value⟩ : EnvironmentVariableDataTemplate)).map
          fun t => (t.key, t.value))
        = (s.environment_variables.map fun ev => (ev.key, ev.value)) := by
  have hn : ¬ s.image.commit_id.length < 7 := Nat.not_lt.mpr hcommit
  cases hreg : s.image.registry_url with
  | some u =>
    refine ⟨((base.insert "helm_app_version"
        (.str ⟨s.image.commit_id.data.take 7⟩)).insert "image_name_with_tag"
        (.str u)).insert "environment_variables"
        (.envList (s.environment_variables.map fun ev => ⟨ev.key, ev.value⟩)),
        [], ?_, ?_, ?_, ?_⟩
    · unfold ExternalService.tera_context
      rw [if_neg hn, hreg]
    · rw [TeraContext.lookup_insert_self]
    · rw [List.length_map]
    · rw [List.map_map]
      rfl
  | none =>
    refine ⟨((base.insert "helm_app_version"
        (.str ⟨s.image.commit_id.data.take 7⟩)).insert "image_name_with_tag"
        (.str s.image.name_with_tag)).insert "environment_variables"
        (.envList (s.environment_variables.map fun ev => ⟨ev.key, ev.value⟩)),
        [noRegistryWarning s.image.name_with_tag], ?_, ?_, ?_, ?_⟩
    · unfold ExternalService.tera_context
      rw [if_neg hn, hreg]
    · rw [TeraContext.lookup_insert_self]
    · rw [List.length_map]
    · rw [List.map_map]
      rfl

/-- Witness for C6: the sample service's single environment variable reappears
unchanged, in order, in the built context. -/
theorem claim_C6_environment_variables_witness :
    ∃ c w, sampleSvc.tera_context ⟨[]⟩ = .ok (c, w) ∧
      c.lookup "environment_variables"
        = some (.envList (sampleSvc.environment_variables.map
            fun ev => ⟨ev.key, ev.value⟩)) ∧
      (sampleSvc.environment_variables.map fun ev =>
          (⟨ev.key, ev.value⟩ : EnvironmentVariableDataTemplate)).length
        = sampleSvc.environment_variables.length ∧
      ((sampleSvc.environment_variables.map fun ev =>
          (⟨ev.key, ev.value⟩ : EnvironmentVariableDataTemplate)).map
          fun t => (t.key, t.value))
        = (sampleSvc.environment_variables.map fun ev => (ev.key, ev.value)) :=
  claim_C6_environment_variables sampleSvc ⟨[]⟩ (by decide)

/-- The context build succeeds whenever the commit id has at least 7
characters. -/
theorem tera_context_ok (s : ExternalService) (base : TeraContext)
    (hcommit : 7 ≤ s.image.commit_id.length) :
    ∃ c w, s.tera_context base = .ok (c, w) := by
  have hn : ¬ s.image.commit_id.length < 7 := Nat.not_lt.mpr hcommit
  unfold ExternalService.tera_context
  rw [if_neg hn]
  cases hreg : s.image.registry_url <;> exact ⟨_, _, rfl⟩

/-- `on_create` panics when the context build panics. -/
theorem on_create_panics (s : ExternalService) (ext : Externals)
    (t : DeploymentTarget)
    (hctx : s.tera_context (ext.defaultTera t.resolve.1 t.resolve.2) = .panic) :
    s.on_create ext t = .panicked := by
  unfold ExternalService.on_create
  rw [hctx]

/-- `on_create` on a render failure: an `Internal` error with the service's
own scope. -/
theorem on_create_render_error (s : ExternalService) (ext : Externals)
    (t : DeploymentTarget) (c : TeraContext) (w : List String) (er : SimpleError)
    (hctx : s.tera_context (ext.defaultTera t.resolve.1 t.resolve.2) = .ok (c, w))
    (hr : ext.render = .error er) :
    s.on_create ext t
      = .failed (EngineError.mk s.engine_error_scope .internal er.message) := by
  unfold ExternalService.on_create
  rw [hctx, hr]
  rfl

/-- `on_create` on a helm-invocation failure: an `Internal` error with the
service's own scope. -/
theorem on_create_helm_error (s : ExternalService) (ext : Externals)
    (t : DeploymentTarget) (p : String) (c : TeraContext) (w : List String)
    (e : SimpleError)
    (hctx : s.tera_context (ext.defaultTera t.resolve.1 t.resolve.2) = .ok (c, w))
    (hrender : ext.render = .ok ())
    (hconfig : t.resolve.1.configFilePath = .ok p)
    (hh : ext.helmExec = .error e) :
    s.on_create ext t
      = .failed (EngineError.mk s.engine_error_scope .internal e.message) := by
  unfold ExternalService.on_create
  rw [hctx, hrender, hconfig, hh]
  rfl

/-- `on_create` when the chart apply yields no history record: the
`User`-caused failure. -/
theorem on_create_no_history (s : ExternalService) (ext : Externals)
    (t : DeploymentTarget) (p : String) (c : TeraContext) (w : List String)
    (hctx : s.tera_context (ext.defaultTera t.resolve.1 t.resolve.2) = .ok (c, w))
    (hrender : ext.render = .ok ())
    (hconfig : t.resolve.1.configFilePath = .ok p)
    (hh : ext.helmExec = .ok none) :
    s.on_create ext t
      = .failed (s.engine_error (.user createUserMessage)
          ("External Service " ++ s.name_with_id ++ " has failed to start ⤬")) := by
  unfold ExternalService.on_create
  rw [hctx, hrender, hconfig, hh]
  rfl

/-- `on_create` when the most-recent history record has a false
"successfully deployed" flag: the `User`-caused failure. -/
theorem on_create_history_unsuccessful (s : ExternalService) (ext : Externals)
    (t : DeploymentTarget) (p : String) (c : TeraContext) (w : List String)
    (row : HelmHistoryRow)
    (hctx : s.tera_context (ext.defaultTera t.resolve.1 t.resolve.2) = .ok (c, w))
    (hrender : ext.render = .ok ())
    (hconfig : t.resolve.1.configFilePath = .ok p)
    (hh : ext.helmExec = .ok (some row))
    (hb : row.is_successfully_deployed = false) :
    s.on_create ext t
      = .failed (s.engine_error (.user createUserMessage)
          ("External Service " ++ s.name_with_id ++ " has failed to start ⤬")) := by
  obtain ⟨flag⟩ := row
  cases flag with
  | true => exact Bool.noConfusion hb
  | false =>
    unfold ExternalService.on_create
    rw [hctx, hrender, hconfig, hh]
    rfl

/-- `on_create` when the history record is successful and the readiness poll
answers ready: success. -/
theorem on_create_happy (s : ExternalService) (ext : Externals)
    (t : DeploymentTarget) (p : String) (c : TeraContext) (w : List String)
    (row : HelmHistoryRow)
    (hctx : s.tera_context (ext.defaultTera t.resolve.1 t.resolve.2) = .ok (c, w))
    (hrender : ext.render = .ok ())
    (hconfig : t.resolve.1.configFilePath = .ok p)
    (hh : ext.helmExec = .ok (some row))
    (hb : row.is_successfully_deployed = true)
    (hj : ext.jobReady = .ok (some true)) :
    s.on_create ext t = .ok := by
  obtain ⟨flag⟩ := row
  cases flag with
  | false => exact Bool.noConfusion hb
  | true =>
    unfold ExternalService.on_create
    rw [hctx, hrender, hconfig, hh, hj]
    rfl

/-- `on_create` when the history record is successful but the readiness poll
never answers ready (or errors): the `Internal`-caused failure. -/
theorem on_create_not_ready (s : ExternalService) (ext : Externals)
    (t : DeploymentTarget) (p : String) (c : TeraContext) (w : List String)
    (row : HelmHistoryRow)
    (hctx : s.tera_context (ext.defaultTera t.resolve.1 t.resolve.2) = .ok (c, w))
    (hrender : ext.render = .ok ())
    (hconfig : t.resolve.1.configFilePath = .ok p)
    (hh : ext.helmExec = .ok (some row))
    (hb : row.is_successfully_deployed = true)
    (hnready : ext.jobReady ≠ .ok (some true)) :
    s.on_create ext t
      = .failed (s.engine_error .internal
          ("External Service " ++ s.name ++ " with id " ++ s.id
            ++ " failed to start after several retries")) := by
  obtain ⟨flag⟩ := row
  cases flag with
  | false => exact Bool.noConfusion hb
  | true =>
    unfold ExternalService.on_create
    rw [hctx, hrender, hconfig, hh]
    cases hj : ext.jobReady with
    | error e => rfl
    | ok ob =>
      cases ob with
      | none => rfl
      | some b =>
        cases b with
        | false => rfl
        | true => exact absurd hj hnready

/-- **C1.** Under a long-enough commit id, a successful render and a resolved
kubeconfig: `on_create` succeeds iff the chart apply yields a most-recent
history record whose "successfully deployed" flag is true AND the readiness
poll reports ready; an absent or unsuccessful history record yields a
`User`-caused `EngineError`; a successful history record without readiness
(including a readiness query error) yields an `Internal`-caused
`EngineError`. -/
theorem claim_C1_on_create_success_iff (s : ExternalService) (ext : Externals)
    (t : DeploymentTarget) (p : String)
    (hcommit : 7 ≤ s.image.commit_id.length)
    (hrender : ext.render = .ok ())
    (hconfig : t.resolve.1.configFilePath = .ok p) :
    (s.on_create ext t = .ok ↔
      (∃ row, ext.helmExec = .ok (some row) ∧ row.is_successfully_deployed = true) ∧
        ext.jobReady = .ok (some true)) ∧
      (∀ ro, ext.helmExec = .ok ro →
        (ro = none ∨ ∃ row, ro = some row ∧ row.is_successfully_deployed = false) →
        ∃ m msg, s.on_create ext t
          = .failed (EngineError.mk s.engine_error_scope (.user m) msg)) ∧
      (∀ row, ext.helmExec = .ok (some row) → row.is_successfully_deployed = true →
        ext.jobReady ≠ .ok (some true) →
        ∃ msg, s.on_create ext t
          = .failed (EngineError.mk s.engine_error_scope .internal msg)) := by
  obtain ⟨c, w, hctx⟩ := tera_context_ok s (ext.defaultTera t.resolve.1 t.resolve.2) hcommit
  refine ⟨⟨?_, ?_⟩, ?_, ?_⟩
  · intro hok
    cases hh : ext.helmExec with
    | error e =>
      rw [on_create_helm_error s ext t p c w e hctx hrender hconfig hh] at hok
      exact RunResult.noConfusion hok
    | ok ro =>
      cases ro with
      | none =>
        rw [on_create_no_history s ext t p c w hctx hrender hconfig hh] at hok
        exact RunResult.noConfusion hok
      | some row =>
        cases hb : row.is_successfully_deployed with
        | false =>
          rw [on_create_history_unsuccessful s ext t p c w row hctx hrender hconfig
            hh hb] at hok
          exact RunResult.noConfusion hok
        | true =>
          refine ⟨⟨row, rfl, hb⟩, ?_⟩
          by_contra hnready
          rw [on_create_not_ready s ext t p c w row hctx hrender hconfig
            hh hb hnready] at hok
          exact RunResult.noConfusion hok
  · rintro ⟨⟨row, hrow, hflag⟩, hready⟩
    exact on_create_happy s ext t p c w row hctx hrender hconfig hrow hflag hready
  · rintro ro hro (rfl | ⟨row, rfl, hflag⟩)
    · exact ⟨createUserMessage, _,
        on_create_no_history s ext t p c w hctx hrender hconfig hro⟩
    · exact ⟨createUserMessage, _,
        on_create_history_unsuccessful s ext t p c w row hctx hrender hconfig hro hflag⟩
  · intro row hrow hflag hnready
    exact ⟨_, on_create_not_ready s ext t p c w row hctx hrender hconfig
      hrow hflag hnready⟩

/-- Witness for C1: on the happy-path sample (history record with a true
flag, readiness ready), `on_create` returns success. -/
theorem claim_C1_on_create_success_iff_witness :
    sampleSvc.on_create sampleExt sampleTarget = .ok :=
  ((claim_C1_on_create_success_iff sampleSvc sampleExt sampleTarget
      "/kube/config" (by decide) rfl rfl).1).mpr
    ⟨⟨{ is_successfully_deployed := true }, rfl, rfl⟩, rfl⟩

/-- **C7.** Provided the kubeconfig lookup itself succeeds, every
`EngineError` returned by `on_create` (render failure, chart-apply failure,
absent or unsuccessful history, readiness failure) carries the scope
`ExternalService(id, name)` of the failing service, and its cause is
classified as `User` or `Internal`. -/
theorem claim_C7_errors_scoped_and_classified (s : ExternalService)
    (ext : Externals) (t : DeploymentTarget) (p : String)
    (hconfig : t.resolve.1.configFilePath = .ok p)
    (e : EngineError) (h : s.on_create ext t = .failed e) :
    e.scope = .externalService s.id s.name ∧
      ((∃ m, e.cause = .user m) ∨ e.cause = .internal) := by
  cases hctx : s.tera_context (ext.defaultTera t.resolve.1 t.resolve.2) with
  | panic =>
    rw [on_create_panics s ext t hctx] at h
    exact RunResult.noConfusion h
  | ok cw =>
    obtain ⟨c, w⟩ := cw
    cases hr : ext.render with
    | error er =>
      rw [on_create_render_error s ext t c w er hctx hr] at h
      injection h with h2
      subst h2
      exact ⟨rfl, Or.inr rfl⟩
    | ok u =>
      cases u
      cases hh : ext.helmExec with
      | error eh =>
        rw [on_create_helm_error s ext t p c w eh hctx hr hconfig hh] at h
        injection h with h2
        subst h2
        exact ⟨rfl, Or.inr rfl⟩
      | ok ro =>
        cases ro with
        | none =>
          rw [on_create_no_history s ext t p c w hctx hr hconfig hh] at h
          injection h with h2
          subst h2
          exact ⟨rfl, Or.inl ⟨createUserMessage, rfl⟩⟩
        | some row =>
          cases hb : row.is_successfully_deployed with
          | false =>
            rw [on_create_history_unsuccessful s ext t p c w row hctx hr hconfig
              hh hb] at h
            injection h with h2
            subst h2
            exact ⟨rfl, Or.inl ⟨createUserMessage, rfl⟩⟩
          | true =>
            by_cases hj : ext.jobReady = .ok (some true)
            · rw [on_create_happy s ext t p c w row hctx hr hconfig hh hb hj] at h
              exact RunResult.noConfusion h
            · rw [on_create_not_ready s ext t p c w row hctx hr hconfig
                hh hb hj] at h
              injection h with h2
              subst h2
              exact ⟨rfl, Or.inr rfl⟩

/-- Witness for C7: with the chart apply yielding no history record, the
error `on_create` returns is scoped to the sample service and classified. -/
theorem claim_C7_errors_scoped_witness :
    sampleUserError.scope = .externalService sampleSvc.id sampleSvc.name ∧
      ((∃ m, sampleUserError.cause = .user m) ∨ sampleUserError.cause = .internal) :=
  claim_C7_errors_scoped_and_classified sampleSvc noHistoryExt sampleTarget
    "/kube/config" rfl sampleUserError rfl

/-- A service named "a-b" with id "c". -/
def svcHyphenA : ExternalService :=
  ExternalService.new sampleCtx "c" .create "a-b" "1" 1 sampleImage []

/-- A service named "a" with id "b-c". -/
def svcHyphenB : ExternalService :=
  ExternalService.new sampleCtx "b-c" .create "a" "1" 1 sampleImage []

/-- **C3** (counterexample).  Two distinct `(name, id)` pairs of ordinary
length collide: the services ("a-b", "c") and ("a", "b-c") both get the
release name "external-service-a-b-c" (well under 50 characters), so the
generated name does **not** differ whenever `(name, id)` differs. -/
theorem claim_C3_release_name_collision :
    svcHyphenA.helm_release_name = svcHyphenB.helm_release_name ∧
      svcHyphenA.helm_release_name = "external-service-a-b-c" ∧
      svcHyphenA.helm_release_name.length ≤ 50 ∧
      ¬(svcHyphenA.name = svcHyphenB.name ∧ svcHyphenA.id = svcHyphenB.id) := by
  refine ⟨?_, ?_, ?_, ?_⟩ <;> decide

/-- Truncation is the identity on strings that already fit. -/
theorem cut_of_length_le (s : String) (n : Nat) (h : s.length ≤ n) :
    cut s n = s := by
  unfold cut
  apply String.ext
  exact List.take_of_length_le h

/-- Splitting at the separator is unambiguous when neither left part
contains the separator. -/
theorem append_dash_inj : ∀ (l₁ l₂ i₁ i₂ : List Char), '-' ∉ l₁ → '-' ∉ l₂ →
    l₁ ++ '-' :: i₁ = l₂ ++ '-' :: i₂ → l₁ = l₂ ∧ i₁ = i₂ := by
  intro l₁
  induction l₁ with
  | nil =>
    intro l₂ i₁ i₂ h₁ h₂ h
    cases l₂ with
    | nil => simpa using h
    | cons b t₂ =>
      simp only [List.nil_append, List.cons_append, List.cons.injEq] at h
      obtain ⟨hb, -⟩ := h
      subst hb
      exact absurd (List.mem_cons_self _ _) h₂
  | cons a t₁ ih =>
    intro l₂ i₁ i₂ h₁ h₂ h
    cases l₂ with
    | nil =>
      simp only [List.nil_append, List.cons_append, List.cons.injEq] at h
      obtain ⟨hb, -⟩ := h
      subst hb
      exact absurd (List.mem_cons_self _ _) h₁
    | cons b t₂ =>
      simp only [List.cons_append, List.cons.injEq] at h
      obtain ⟨rfl, h'⟩ := h
      have h₁' : '-' ∉ t₁ := fun hm => h₁ (List.mem_cons_of_mem _ hm)
      have h₂' : '-' ∉ t₂ := fun hm => h₂ (List.mem_cons_of_mem _ hm)
      obtain ⟨he, hi⟩ := ih t₂ i₁ i₂ h₁' h₂' h'
      exact ⟨by rw [he], hi⟩

/-- **C3** (amended).  The release name is always at most 50 characters and
deterministic; distinct `(name, id)` pairs give distinct release names
provided the names contain no '-' and the untruncated
`"external-service-<name>-<id>"` strings fit within the 50-character bound
(otherwise hyphen ambiguity or truncation can make distinct pairs collide,
as the counterexample shows). -/
theorem claim_C3_release_name_amended :
    (∀ s : ExternalService, s.helm_release_name.length ≤ 50) ∧
      (∀ s₁ s₂ : ExternalService, s₁.name = s₂.name → s₁.id = s₂.id →
        s₁.helm_release_name = s₂.helm_release_name) ∧
      (∀ s₁ s₂ : ExternalService, '-' ∉ s₁.name.data → '-' ∉ s₂.name.data →
        ("external-service-" ++ s₁.name ++ "-" ++ s₁.id).length ≤ 50 →
        ("external-service-" ++ s₂.name ++ "-" ++ s₂.id).length ≤ 50 →
        s₁.helm_release_name = s₂.helm_release_name →
        s₁.name = s₂.name ∧ s₁.id = s₂.id) := by
  refine ⟨?_, ?_, ?_⟩
  · intro s
    show ((("external-service-" ++ s.name ++ "-" ++ s.id).data).take 50).length ≤ 50
    rw [List.length_take]
    exact min_le_left _ _
  · intro s₁ s₂ h1 h2
    unfold ExternalService.helm_release_name
    rw [h1, h2]
  · intro s₁ s₂ hd₁ hd₂ hl₁ hl₂ heq
    unfold ExternalService.helm_release_name at heq
    rw [cut_of_length_le _ _ hl₁, cut_of_length_le _ _ hl₂] at heq
    have hdata := congrArg String.data heq
    simp only [String.data_append, List.append_assoc] at hdata
    have hcancel := List.append_cancel_left hdata
    have hsplit := append_dash_inj s₁.name.data s₂.name.data s₁.id.data s₂.id.data
      hd₁ hd₂ (by simpa using hcancel)
    exact ⟨String.ext hsplit.1, String.ext hsplit.2⟩

/-- Witness for C3 (amended): instantiated at the hyphen-free sample service,
the collision-freedom hypotheses hold and the conclusion follows. -/
theorem claim_C3_release_name_amended_witness :
    sampleSvc.name = sampleSvc.name ∧ sampleSvc.id = sampleSvc.id :=
  claim_C3_release_name_amended.2.2 sampleSvc sampleSvc (by decide) (by decide)
    (by decide) (by decide) rfl

end Engine
